import Mathlib

/-!
Shallow embedding of the crew-investment-agents backend
(FastAPI job engine plus signal detectors), translated from
`backend/main.py`, `backend/models/analysis.py`,
`backend/services/{capex,pricing,rotation,sell,candidates,price_info}.py`
and `backend/agents/crew.py`.

Numeric market data is embedded as `ℚ` (the Python code works on floats
coming from pandas; all guard conditions in the source are pure
comparisons, so rationals model them exactly).  External data fetches
(`yfinance` downloads, quarterly statements) are embedded as explicit
inputs: a value of type `Option _` whose `none` case models the
source branches that bail out when the provider raised or a required
column/line item is missing.  Python `None` inside a returned dict is
modelled as `Option.none` of the corresponding field.
-/

namespace CrewInvest

/-! ## Python string primitives

The source normalises ticker strings with `str.strip`, `str.upper` and
`str.split(',')`.  These builtins are embedded as structurally recursive
functions on the character list of a `String`, mirroring their behaviour
on the ASCII inputs the program manipulates. -/

/-- Embedding of Python `str.upper` on one character (ASCII case map,
exactly the arithmetic of `Char.toUpper` in the standard library). -/
def pyCharUpper (c : Char) : Char :=
  if 97 ≤ c.toNat ∧ c.toNat ≤ 122 then Char.ofNat (c.toNat - 32) else c

/-- Embedding of Python `str.upper`. -/
def pyUpper (s : String) : String :=
  ⟨s.data.map pyCharUpper⟩

/-- Embedding of Python `str.strip` (drop leading and trailing whitespace). -/
def pyStrip (s : String) : String :=
  ⟨((s.data.dropWhile Char.isWhitespace).reverse.dropWhile Char.isWhitespace).reverse⟩

/-- Split a character list at every occurrence of `sep`.
`splitCharsOn sep [] = [[]]`, matching Python `"".split(sep) = [""]`. -/
def splitCharsOn (sep : Char) : List Char → List (List Char)
  | [] => [[]]
  | c :: rest =>
    let r := splitCharsOn sep rest
    if c = sep then
      [] :: r
    else
      match r with
      | h :: t => (c :: h) :: t
      | [] => [[c]]

/-- Embedding of Python `s.split(',')`. -/
def pySplitComma (s : String) : List String :=
  (splitCharsOn ',' s.data).map fun cs => ⟨cs⟩

/-- Embedding of Python `",".join(l)`. -/
def pyJoinComma (l : List String) : String :=
  String.intercalate "," l

/-! ## Data model (`backend/models/analysis.py`) -/

/-- `AnalysisStatus` enumeration (`models/analysis.py`, lines 21-27). -/
inductive AnalysisStatus where
  | pending
  | running
  | completed
  | failed
deriving DecidableEq, Repr

/-- Declared column default for `Analysis.status`
(`models/analysis.py`, line 42). -/
def analysisStatusColumnDefault : AnalysisStatus := .pending

/-- One recommendation entry of the reasoning stage output
(a dict inside `parsed['recommendations']` in `run_analysis`).
Only the fields touched by `run_analysis` are modelled; the
`report_time` timestamp the code also attaches is not (wall-clock time
is outside the embedding and no claim mentions it). -/
structure Rec where
  ticker : Option String
  rating : Option String
  reason : Option String
  current_price : Option ℚ
  percent_change : Option ℚ
deriving DecidableEq, Repr

/-- Value returned by `get_stock_price_info` (`services/price_info.py`):
the dict always carries `current_price`; `percent_change` is `None`
when the past price was zero. -/
structure PriceInfo where
  current_price : ℚ
  percent_change : Option ℚ
deriving DecidableEq, Repr

/-- Persisted summary text.  `run_analysis` stores either the raw crew
output string (JSON parsing failed, or the job failed) or the
re-serialised parsed object; serialisation (`json.dumps`) is kept
abstract via the `structured` constructor. -/
inductive SummaryVal where
  | raw (s : String)
  | structured (recommendations : List Rec)
deriving DecidableEq, Repr

/-- The `Analysis` record (`models/analysis.py`, lines 29-46), restricted
to the columns `run_analysis` and `create_analysis` read or write.
Timestamps and the generated id are not modelled. -/
structure AnalysisRecord where
  ticker : String
  status : AnalysisStatus
  recommendation : Option String
  summary : Option SummaryVal
deriving DecidableEq, Repr

/-! ## Default candidates (`services/candidates.py`) -/

/-- `get_default_candidate_tickers` (`services/candidates.py`, lines 36-73). -/
def get_default_candidate_tickers : List String :=
  ["GE", "ETN", "CMI", "AOS", "ABB", "SIEGY", "HTHIY",
   "NEE", "DUK", "SO",
   "XLI", "XLU", "XLE", "XLB",
   "NVDA", "MSFT", "AAPL", "GOOGL", "AMZN", "AVGO"]

/-! ## Job creation (`main.py`, `create_analysis`, lines 93-115) -/

/-- The ticker list actually analysed: the request body list when it is
present and non-empty, else the default candidates (Python
`if not request.tickers`). -/
def resolveTickers (requestTickers : Option (List String)) : List String :=
  match requestTickers with
  | none => get_default_candidate_tickers
  | some l => if l = [] then get_default_candidate_tickers else l

/-- The analysis record persisted by `create_analysis` (`main.py`,
lines 107-112): `Analysis(ticker=tickers_str, status=AnalysisStatus.RUNNING)`
followed by `db.add` / `db.flush`. -/
def create_analysis (requestTickers : Option (List String)) : AnalysisRecord :=
  { ticker := pyJoinComma (resolveTickers requestTickers)
    status := .running
    recommendation := none
    summary := none }

/-! ## Result reconciliation and persistence (`main.py`, `run_analysis`) -/

/-- Python truthiness test `if ticker:` on an optional string. -/
def truthyStr : Option String → Bool
  | none => false
  | some s => s ≠ ""

/-- The set (here: list, in construction order, possibly with repeats)
`existing_rec_tickers` built in `run_analysis` (lines 228-232): the
upper-cased ticker of every recommendation whose `ticker` value is
truthy. -/
def existingRecTickers (recs : List Rec) : List String :=
  recs.filterMap fun r =>
    match r.ticker with
    | some s => if s = "" then none else some (pyUpper s)
    | none => none

/-- Price enrichment applied to one recommendation entry inside the
first loop of `run_analysis` (lines 229-238): when the ticker is truthy
and `get_stock_price_info` (abstracted as the oracle `pinfo`) returns a
dict, copy `current_price` and `percent_change` into the entry. -/
def enrichRec (pinfo : String → Option PriceInfo) (r : Rec) : Rec :=
  match r.ticker with
  | some s =>
    if s = "" then r
    else
      match pinfo s with
      | some info =>
        { r with current_price := some info.current_price
                 percent_change := info.percent_change }
      | none => r
  | none => r

/-- `requested_tickers` (`main.py`, line 245):
`[t.strip().upper() for t in tickers_str.split(',') if t.strip()]`. -/
def requestedTickers (tickers_str : String) : List String :=
  (pySplitComma tickers_str).filterMap fun t =>
    if pyStrip t = "" then none else some (pyUpper (pyStrip t))

/-- The fixed explanatory reason attached to synthesized neutral
entries (`main.py`, line 253). -/
def neutralReason : String :=
  "No strong capex growth, price spike or sector rotation signals were observed for this stock."

/-- The neutral entry appended for a requested ticker that the
reasoning output did not mention (`main.py`, lines 248-260). -/
def neutralEntry (pinfo : String → Option PriceInfo) (req : String) : Rec :=
  let base : Rec :=
    { ticker := some req
      rating := some "neutral"
      reason := some neutralReason
      current_price := none
      percent_change := none }
  match pinfo req with
  | some info =>
    { base with current_price := some info.current_price
                percent_change := info.percent_change }
  | none => base

/-- The full reconciliation performed by `run_analysis` on a parsed
recommendations list (lines 226-261): enrich every existing entry,
then append one neutral entry per requested ticker whose upper-cased
form is not among the upper-cased tickers of the original list. -/
def reconcile (tickers_str : String) (pinfo : String → Option PriceInfo)
    (recs : List Rec) : List Rec :=
  let existing := existingRecTickers recs
  recs.map (enrichRec pinfo) ++
    ((requestedTickers tickers_str).filter fun req =>
        !existing.contains req).map (neutralEntry pinfo)

/-- Python `f"{r.get('ticker')}: {r.get('rating')}"` (line 272);
a missing value prints as `None`. -/
def recLabel (r : Rec) : String :=
  (r.ticker.getD "None") ++ ": " ++ (r.rating.getD "None")

/-- The aggregated recommendation string (`main.py`, lines 270-275). -/
def aggregatedRecommendation (recs : List Rec) : Option String :=
  if recs = [] then none
  else some (String.intercalate ", " (recs.map recLabel))

/-- Outcome of the crew pipeline (`crew.kickoff` plus `json.loads`),
both external collaborators: `ok raw parsed` models a kickoff that
returned the string `raw`, with `parsed = some p` when `json.loads raw`
succeeds with recommendation list `p` and `parsed = none` when JSON
parsing (or the subsequent dict traversal) raised; `exn msg` models an
exception escaping the pipeline itself. -/
inductive CrewOutcome where
  | ok (raw : String) (parsed : Option (List Rec))
  | exn (msg : String)

/-- The update `run_analysis` (`main.py`, lines 184-302) applies to the
analysis record.  On success the status becomes COMPLETED and either
the reconciled structured summary (JSON parsed) or the raw string with
a null recommendation (JSON unparseable, inner `except`, lines 276-278)
is stored; an escaping exception stores FAILED with the message as
summary (lines 280-286). -/
def run_analysis (tickers_str : String) (pinfo : String → Option PriceInfo)
    (outcome : CrewOutcome) (a : AnalysisRecord) : AnalysisRecord :=
  match outcome with
  | .exn msg =>
    { a with status := .failed, summary := some (.raw msg) }
  | .ok raw parsed =>
    match parsed with
    | none =>
      { a with status := .completed
               summary := some (.raw raw)
               recommendation := none }
    | some recs =>
      let updated := reconcile tickers_str pinfo recs
      { a with status := .completed
               summary := some (.structured updated)
               recommendation := aggregatedRecommendation updated }

/-- The sequence of status values committed for one job over its
lifetime: first the record persisted by `create_analysis`, then the
record persisted at the end of `run_analysis`.  (`run_analysis` writes
the status exactly once, in whichever branch it takes; the `finally`
block only appends log rows.) -/
def persistedStatusTrace (requestTickers : Option (List String))
    (pinfo : String → Option PriceInfo) (outcome : CrewOutcome) :
    List AnalysisStatus :=
  let a0 := create_analysis requestTickers
  let a1 := run_analysis a0.ticker pinfo outcome a0
  [a0.status, a1.status]

/-! ## WebSocket fan-out (`main.py`, `ConnectionManager`, lines 58-80) -/

/-- One live WebSocket subscriber.  `sendFails` is the oracle for
whether `send_text` raises on this connection during a broadcast. -/
structure Subscriber where
  id : Nat
  sendFails : Bool
deriving DecidableEq, Repr

/-- State touched by one `broadcast` call for one analysis id:
the subscriber list `active_connections[analysis_id]`, the sockets
closed so far, and the deliveries performed so far (in order). -/
structure BroadcastState where
  conns : List Subscriber
  closedIds : List Nat
  delivered : List (Nat × String)
deriving DecidableEq, Repr

/-- The loop body of `ConnectionManager.broadcast` (`main.py`,
lines 73-78) for one registered websocket: a successful `send_text`
delivers the message, a failing one is answered by
`websocket.close()` — and nothing else. -/
def broadcastStep (message : String) (acc : BroadcastState) (ws : Subscriber) :
    BroadcastState :=
  if ws.sendFails then
    { acc with closedIds := acc.closedIds ++ [ws.id] }
  else
    { acc with delivered := acc.delivered ++ [(ws.id, message)] }

/-- `ConnectionManager.broadcast` (`main.py`, lines 72-78): iterate over
the registered connections; the connection list itself is never
modified by the loop. -/
def broadcast (message : String) (st : BroadcastState) : BroadcastState :=
  st.conns.foldl (broadcastStep message) st

/-- `ConnectionManager.disconnect` (`main.py`, lines 66-70), restricted
to one analysis id: remove the first occurrence of the websocket from
the list (Python `list.remove`). -/
def disconnect (ws : Subscriber) (conns : List Subscriber) : List Subscriber :=
  conns.eraseP (fun c => c = ws)

/-! ## Capex growth (`services/capex.py`, `get_capex_growth`) -/

/-- Result dict of `get_capex_growth` (`capex.py`, lines 84-91).
The `ticker` and period-label strings are carried by the caller in the
embedding and omitted here. -/
structure CapexResult where
  latest_capex_mil : ℚ
  previous_capex_mil : ℚ
  capex_growth_pct : Option ℚ
deriving DecidableEq, Repr

/-- `get_capex_growth` (`capex.py`, lines 35-95).  The input is the
`Capital Expenditures` row of the quarterly cash-flow statement after
`dropna().sort_index(ascending=False)` (most recent first); `none`
models the branches that return `None` because the provider raised or
the line item is missing.  With fewer than two periods the function
returns `None`; otherwise the two most recent figures are
sign-flipped to positive spend and the growth ratio is `None` exactly
when the previous figure is zero. -/
def get_capex_growth (capexSeries : Option (List ℚ)) : Option CapexResult :=
  match capexSeries with
  | none => none
  | some series =>
    if series.length < 2 then none
    else
      let latest := -(series.getD 0 0)
      let prev := -(series.getD 1 0)
      let growth_pct := if prev = 0 then none else some ((latest - prev) / |prev|)
      some { latest_capex_mil := latest
             previous_capex_mil := prev
             capex_growth_pct := growth_pct }

/-- One entry of the JSON list produced by `capex_tool`
(`agents/crew.py`, lines 48-67): the `get_capex_growth` dict plus the
`strong_signal` flag. -/
structure CapexToolEntry where
  ticker : String
  result : CapexResult
  strong_signal : Bool
deriving DecidableEq, Repr

/-- The flag assignment of `capex_tool` (`crew.py`, line 64):
`growth is not None and growth >= 0.20`. -/
def capexStrongFlag : Option ℚ → Bool
  | none => false
  | some g => decide ((0.20 : ℚ) ≤ g)

/-- `capex_tool` (`crew.py`, lines 48-67): split the comma-separated
ticker string, compute capex growth per ticker through the statement
oracle `fetch`, drop tickers whose result is `None`, and attach
`strong_signal`. -/
def capex_tool (tickers : String) (fetch : String → Option (List ℚ)) :
    List CapexToolEntry :=
  let tickers_list :=
    (pySplitComma tickers).filterMap fun t =>
      if pyStrip t = "" then none else some (pyStrip t)
  tickers_list.filterMap fun t =>
    match get_capex_growth (fetch t) with
    | none => none
    | some data =>
      some { ticker := t
             result := data
             strong_signal := capexStrongFlag data.capex_growth_pct }

/-! ## Price spikes (`services/pricing.py` and `pricing_tool`) -/

/-- One entry of the `get_price_spikes` result list
(`pricing.py`, lines 106-115). -/
structure PriceSpikeEntry where
  ticker : String
  start_price : ℚ
  end_price : ℚ
  price_change_pct : Option ℚ
deriving DecidableEq, Repr

/-- `get_price_spikes` (`pricing.py`, lines 48-119) at the default
window of 30 days and threshold 0.05.  Per ticker the oracle yields the
`Close` series after `dropna` (`none` models a missing download, and an
empty list the rows whose `iloc` access raises, both of which `continue`
past the ticker).  The start price is the close 30 sessions back, or
the earliest close when fewer are available; the percent change is
`None` when the start price is zero; only tickers whose change is
non-null and at least the threshold are returned. -/
def get_price_spikes (inputs : List (String × Option (List ℚ)))
    (window_days : Nat := 30) (threshold_pct : ℚ := 0.05) :
    List PriceSpikeEntry :=
  inputs.filterMap fun (ticker, data) =>
    match data with
    | none => none
    | some closes =>
      if closes = [] then none
      else
        let end_price := closes.getLastD 0
        let start_price :=
          if closes.length ≤ window_days then closes.getD 0 0
          else closes.getD (closes.length - window_days) 0
        let pct_change :=
          if start_price = 0 then none
          else some ((end_price - start_price) / start_price)
        match pct_change with
        | none => none
        | some pct =>
          if threshold_pct ≤ pct then
            some { ticker := ticker
                   start_price := start_price
                   end_price := end_price
                   price_change_pct := some pct }
          else none

/-- The flag assignment of `pricing_tool` (`crew.py`, line 82):
`change is not None and change >= 0.05`. -/
def spikeFlag : Option ℚ → Bool
  | none => false
  | some c => decide ((0.05 : ℚ) ≤ c)

/-- One entry of the `pricing_tool` output (`crew.py`, lines 70-83). -/
structure PricingToolEntry where
  entry : PriceSpikeEntry
  spike : Bool
deriving DecidableEq, Repr

/-- `pricing_tool` (`crew.py`, lines 70-83): annotate every
`get_price_spikes` entry with the `spike` flag. -/
def pricing_tool (inputs : List (String × Option (List ℚ))) :
    List PricingToolEntry :=
  (get_price_spikes inputs).map fun r =>
    { entry := r, spike := spikeFlag r.price_change_pct }

/-! ## Fundamental peak (`services/sell.py`, `get_fundamental_peak_signal`) -/

/-- Statement rows consumed by `get_fundamental_peak_signal`
(`sell.py`, lines 110-140): each is the named line item of the
quarterly statements after `dropna().sort_index(ascending=False)`
(most recent first); `none` models a missing line item.  `capex` is
the input forwarded to `get_capex_growth`. -/
structure FundInput where
  revenue : Option (List ℚ)
  inventory : Option (List ℚ)
  receivables : Option (List ℚ)
  capex : Option (List ℚ)
deriving DecidableEq, Repr

/-- Result dict of `get_fundamental_peak_signal`
(`sell.py`, lines 164-178). -/
structure FundResult where
  latest_revenue : ℚ
  previous_revenue : ℚ
  revenue_growth_pct : Option ℚ
  latest_inventory : ℚ
  previous_inventory : ℚ
  inventory_growth_pct : Option ℚ
  latest_receivables : ℚ
  previous_receivables : ℚ
  receivables_growth_pct : Option ℚ
  capex_growth_pct : Option ℚ
  capex_peak : Bool
  fundamental_signal : Bool
deriving DecidableEq, Repr

/-- Growth-rate guard used throughout `sell.py` (e.g. lines 142-144):
`None if prev == 0 else (latest - prev) / abs(prev)`. -/
def growthPct (latest prev : ℚ) : Option ℚ :=
  if prev = 0 then none else some ((latest - prev) / |prev|)

/-- `get_fundamental_peak_signal` (`sell.py`, lines 93-181).  The outer
`Option` on the input models the `except` branch (provider raised).
Missing line items or fewer than two periods yield `None`.  The
fundamental flag fires when all three growth rates are available,
inventory growth outpaces revenue growth by at least 0.20 and
receivables growth is below revenue growth; a negative capex growth
(`capex_peak`) also sets it. -/
def get_fundamental_peak_signal (input : Option FundInput) : Option FundResult :=
  match input with
  | none => none
  | some fi =>
    match fi.revenue, fi.inventory, fi.receivables with
    | some rev_series, some inv_series, some ar_series =>
      if rev_series.length < 2 ∨ inv_series.length < 2 ∨ ar_series.length < 2 then
        none
      else
        let latest_rev := rev_series.getD 0 0
        let prev_rev := rev_series.getD 1 0
        let latest_inv := inv_series.getD 0 0
        let prev_inv := inv_series.getD 1 0
        let latest_ar := ar_series.getD 0 0
        let prev_ar := ar_series.getD 1 0
        let rev_growth := growthPct latest_rev prev_rev
        let inv_growth := growthPct latest_inv prev_inv
        let ar_growth := growthPct latest_ar prev_ar
        let base_signal :=
          match rev_growth, inv_growth, ar_growth with
          | some rg, some ig, some ag =>
            decide ((0.20 : ℚ) ≤ ig - rg) && decide (ag < rg)
          | _, _, _ => false
        let capex_data := get_capex_growth fi.capex
        let capex_growth_pct := capex_data.bind (·.capex_growth_pct)
        let capex_peak :=
          match capex_growth_pct with
          | some g => decide (g < 0)
          | none => false
        some { latest_revenue := latest_rev
               previous_revenue := prev_rev
               revenue_growth_pct := rev_growth
               latest_inventory := latest_inv
               previous_inventory := prev_inv
               inventory_growth_pct := inv_growth
               latest_receivables := latest_ar
               previous_receivables := prev_ar
               receivables_growth_pct := ar_growth
               capex_growth_pct := capex_growth_pct
               capex_peak := capex_peak
               fundamental_signal := base_signal || capex_peak }
    | _, _, _ => none

/-! ## Technical exhaustion (`services/sell.py`, `_compute_rsi` and
`get_technical_exhaustion_signal`)

RSI values are embedded as `Option ℚ`: `none` stands for pandas `NaN`
(the first element of the diffed series, and the indeterminate `0/0`
average ratio), while the `0`-denominator/positive-numerator case that
floats evaluate to `+inf` collapses to an RSI of `100`, exactly as
`100 - 100/(1+rs)` does in the source. -/

/-- Exponential moving average with `adjust=False`
(`pandas.Series.ewm`): `y₀ = x₀`, `yₜ = (1-α)·yₜ₋₁ + α·xₜ`. -/
def ewmaFrom (α : ℚ) : ℚ → List ℚ → List ℚ
  | _, [] => []
  | prev, x :: rest =>
    let y := (1 - α) * prev + α * x
    y :: ewmaFrom α y rest

/-- `ewm(span=n, adjust=False).mean()` on a NaN-free series. -/
def ewma (α : ℚ) : List ℚ → List ℚ
  | [] => []
  | x :: rest => x :: ewmaFrom α x rest

/-- RSI of one pair of smoothed gain/loss averages
(`sell.py`, lines 88-89): `100 - 100/(1+rs)` with `rs = up/down`. -/
def rsiOfAvgs (ru rd : ℚ) : Option ℚ :=
  if rd = 0 then
    if ru = 0 then none else some 100
  else
    some (100 - 100 / (1 + ru / rd))

/-- `_compute_rsi` (`sell.py`, lines 64-90) on a NaN-free close series:
diff, clip into gains and losses, smooth both with a span-14 EWM and
combine.  The leading `none` mirrors the NaN the `diff` puts at
position 0. -/
def computeRsi (closes : List ℚ) : List (Option ℚ) :=
  let deltas := (closes.zip closes.tail).map fun p => p.2 - p.1
  let ups := deltas.map fun d => max d 0
  let downs := deltas.map fun d => max (-d) 0
  let α : ℚ := 2 / 15
  let roll_up := ewma α ups
  let roll_down := ewma α downs
  none :: (roll_up.zip roll_down).map fun p => rsiOfAvgs p.1 p.2

/-- Arithmetic mean of a rational list (`Series.mean`). -/
def listMean (l : List ℚ) : ℚ := l.sum / l.length

/-- Maximum of a rational list with default `0` for the empty list
(`Series.max`; the callers below only apply it to non-empty windows). -/
def listMax : List ℚ → ℚ
  | [] => 0
  | x :: xs => xs.foldl max x

/-- Maximum of an optional-rational list, skipping `none` entries the
way `Series.max` skips NaN; `none` when no numeric entry exists. -/
def listMaxOption (l : List (Option ℚ)) : Option ℚ :=
  l.foldl
    (fun acc x =>
      match acc, x with
      | none, v => v
      | some m, none => some m
      | some m, some v => some (max m v))
    none

/-- Result dict of `get_technical_exhaustion_signal`
(`sell.py`, lines 246-257). -/
structure TechResult where
  current_price : ℚ
  sma200 : ℚ
  extension_pct : Option ℚ
  current_rsi : Option ℚ
  prior_window_rsi_max : Option ℚ
  new_high : Bool
  rsi_divergence : Bool
  overextended : Bool
  technical_signal : Bool
deriving DecidableEq, Repr

/-- `get_technical_exhaustion_signal` (`sell.py`, lines 184-260).
Input: the `Close` series after `dropna` (`none` models a failed or
empty download, or a missing `Close` column).  Requires at least 200
closes; computes the 200-session SMA, the extension above it, the RSI
series, the 30-session high test and the bearish-divergence test. -/
def get_technical_exhaustion_signal (input : Option (List ℚ)) : Option TechResult :=
  match input with
  | none => none
  | some closes =>
    if closes.length < 200 then none
    else
      let sma200 := listMean (closes.drop (closes.length - 200))
      let current_price := closes.getLastD 0
      let extension_pct :=
        if sma200 = 0 then none else some ((current_price - sma200) / sma200)
      let rsi_series := computeRsi closes
      let current_rsi := (rsi_series.getLastD none)
      let recent_prices := closes.drop (closes.length - 30)
      let new_high := decide (listMax recent_prices ≤ current_price)
      let recent_rsi := rsi_series.drop (rsi_series.length - 30)
      let prior_rsi_max := listMaxOption recent_rsi.dropLast
      let rsi_divergence :=
        match current_rsi, prior_rsi_max with
        | some cr, some pm =>
          decide (listMax recent_prices ≤ current_price) && decide (cr < pm)
        | _, _ => false
      let overextended :=
        match extension_pct with
        | some e => decide ((0.80 : ℚ) ≤ e)
        | none => false
      some { current_price := current_price
             sma200 := sma200
             extension_pct := extension_pct
             current_rsi := current_rsi
             prior_window_rsi_max := prior_rsi_max
             new_high := new_high
             rsi_divergence := rsi_divergence
             overextended := overextended
             technical_signal := overextended || rsi_divergence }

/-! ## Distribution days (`services/sell.py`, `get_distribution_exit_signal`) -/

/-- Result dict of `get_distribution_exit_signal`
(`sell.py`, lines 310-315). -/
structure DistResult where
  distribution_days_count : Nat
  avg_volume_60 : ℚ
  distribution_signal : Bool
deriving DecidableEq, Repr

/-- The counting loop of `get_distribution_exit_signal`
(`sell.py`, lines 293-308): for `i` in `1 .. min(20, n-1)`, session
`n-i` is a distribution day when its close is below the prior close
and its volume exceeds both the prior volume and `avg`. -/
def distributionDayCount (closes volumes : List ℚ) (avg : ℚ) : Nat :=
  let n := closes.length
  ((List.range (min 21 n)).filter fun i =>
    decide (1 ≤ i) &&
    (decide (closes.getD (n - i) 0 < closes.getD (n - i - 1) 0) &&
     (decide (volumes.getD (n - i - 1) 0 < volumes.getD (n - i) 0) &&
      decide (avg < volumes.getD (n - i) 0)))).length

/-- `get_distribution_exit_signal` (`sell.py`, lines 263-318).
Input: the rows of the downloaded history as (close, volume) pairs in
chronological order; `none` models a failed download or missing
`Close`/`Volume` columns, and the empty history (`hist.empty`) also
returns `None`.  The 60-session average volume degrades to the mean of
all available volumes when fewer than 60 sessions exist; the flag is
the count reaching 4. -/
def get_distribution_exit_signal (hist : Option (List (ℚ × ℚ))) : Option DistResult :=
  match hist with
  | none => none
  | some rows =>
    if rows = [] then none
    else
      let closes := rows.map (·.1)
      let volumes := rows.map (·.2)
      let avg_volume_60 :=
        if volumes.length < 60 then listMean volumes
        else listMean (volumes.drop (volumes.length - 60))
      let count := distributionDayCount closes volumes avg_volume_60
      some { distribution_days_count := count
             avg_volume_60 := avg_volume_60
             distribution_signal := decide (4 ≤ count) }

/-! ## Composite sell signal (`services/sell.py`, `get_sell_signals`) -/

/-- Per-ticker detector inputs for `get_sell_signals`: the data each of
the three sub-detectors would fetch for this ticker. -/
structure SellInput where
  ticker : String
  fund : Option FundInput
  tech : Option (List ℚ)
  dist : Option (List (ℚ × ℚ))
deriving Repr

/-- One entry of the `get_sell_signals` result list
(`sell.py`, lines 344-377).  Every field except `ticker` and
`sell_signal` is written only when the corresponding sub-detector
returned a dict, hence the outer `Option` (a missing dict key); the
inner `Option ℚ` on metric fields is the possibly-`None` value
itself. -/
structure SellTickerResult where
  ticker : String
  fundamental_signal : Option Bool
  inventory_growth_pct : Option (Option ℚ)
  revenue_growth_pct : Option (Option ℚ)
  receivables_growth_pct : Option (Option ℚ)
  capex_growth_pct : Option (Option ℚ)
  technical_signal : Option Bool
  extension_pct : Option (Option ℚ)
  current_rsi : Option (Option ℚ)
  rsi_divergence : Option Bool
  overextended : Option Bool
  distribution_signal : Option Bool
  distribution_days_count : Option Nat
  sell_signal : Bool
deriving DecidableEq, Repr

/-- The loop body of `get_sell_signals` (`sell.py`, lines 338-377) for
one ticker: run the three sub-detectors, `continue` (here: `none`)
when all three are unavailable, otherwise copy each available
sub-result's fields and OR the available flags into `sell_signal`. -/
def sellResultFor (inp : SellInput) : Option SellTickerResult :=
  let fundamental := get_fundamental_peak_signal inp.fund
  let technical := get_technical_exhaustion_signal inp.tech
  let distribution := get_distribution_exit_signal inp.dist
  if fundamental = none ∧ technical = none ∧ distribution = none then none
  else
    some { ticker := inp.ticker
           fundamental_signal := fundamental.map (·.fundamental_signal)
           inventory_growth_pct := fundamental.map (·.inventory_growth_pct)
           revenue_growth_pct := fundamental.map (·.revenue_growth_pct)
           receivables_growth_pct := fundamental.map (·.receivables_growth_pct)
           capex_growth_pct := fundamental.map (·.capex_growth_pct)
           technical_signal := technical.map (·.technical_signal)
           extension_pct := technical.map (·.extension_pct)
           current_rsi := technical.map (·.current_rsi)
           rsi_divergence := technical.map (·.rsi_divergence)
           overextended := technical.map (·.overextended)
           distribution_signal := distribution.map (·.distribution_signal)
           distribution_days_count := distribution.map (·.distribution_days_count)
           sell_signal :=
             (fundamental.map (·.fundamental_signal)).getD false ||
             ((technical.map (·.technical_signal)).getD false ||
              (distribution.map (·.distribution_signal)).getD false) }

/-- `get_sell_signals` (`sell.py`, lines 321-378): the per-ticker loop
with `continue` is a `filterMap`. -/
def get_sell_signals (inputs : List SellInput) : List SellTickerResult :=
  inputs.filterMap sellResultFor

/-! ## Sector rotation (`services/rotation.py` and `rotation_tool`) -/

/-- One sector of the rotation analysis: ETF ticker, display name, and
its aligned price series (`none` when the download lacks the ticker,
which the loop skips, `rotation.py` lines 116-117). -/
structure SectorInput where
  ticker : String
  name : String
  prices : Option (List ℚ)
deriving Repr

/-- The `SectorRotationResult` dataclass (`rotation.py`, lines 44-51). -/
structure SectorRotationResult where
  ticker : String
  name : String
  trailing_return : ℚ
  market_return : ℚ
  relative_return : ℚ
  up_on_down_days_ratio : ℚ
deriving DecidableEq, Repr

/-- `Series.pct_change().dropna()` on a NaN-free aligned series. -/
def pctChange (prices : List ℚ) : List ℚ :=
  (prices.zip prices.tail).map fun p => (p.2 - p.1) / p.1

/-- Descending order on relative return, the key of
`results.sort(key=..., reverse=True)` (`rotation.py`, line 140). -/
def rotationOrder (a b : SectorRotationResult) : Prop :=
  b.relative_return ≤ a.relative_return

instance : DecidableRel rotationOrder := fun a b =>
  inferInstanceAs (Decidable (b.relative_return ≤ a.relative_return))

/-- `get_sector_rotation_analysis` (`rotation.py`, lines 57-141) on the
downloaded and jointly `dropna`-aligned price table: `market` is the
benchmark (SPY) column, and each sector contributes its column when
present.  Sectors without data are skipped; each present sector gets
its trailing return, the market return over the same window, their
difference, and the fraction of market down-days on which the sector
closed up (0 when no down-days exist); the result list is sorted by
relative return, descending (Python sorts are stable, as is the
insertion sort used here). -/
def get_sector_rotation_analysis (market : List ℚ) (sectors : List SectorInput) :
    List SectorRotationResult :=
  let market_returns := pctChange market
  let results := sectors.filterMap fun s =>
    match s.prices with
    | none => none
    | some prices =>
      let sector_ret := pctChange prices
      let trailing_return := prices.getLastD 0 / prices.getD 0 0 - 1
      let market_ret_over_period := market.getLastD 0 / market.getD 0 0 - 1
      let relative_return := trailing_return - market_ret_over_period
      let paired := market_returns.zip sector_ret
      let down_days := paired.filter fun p => decide (p.1 < 0)
      let up_on_down :=
        if down_days.length = 0 then (0 : ℚ)
        else ((down_days.filter fun p => decide (0 < p.2)).length : ℚ) /
          (down_days.length : ℚ)
      some { ticker := s.ticker
             name := s.name
             trailing_return := trailing_return
             market_return := market_ret_over_period
             relative_return := relative_return
             up_on_down_days_ratio := up_on_down }
  results.insertionSort rotationOrder

/-- One entry of the `rotation_tool` payload (`crew.py`, lines 105-115). -/
structure RotationToolEntry where
  result : SectorRotationResult
  rotation_signal : Bool
deriving DecidableEq, Repr

/-- `rotation_tool` (`crew.py`, lines 86-116): annotate each analysis
result with `rotation_signal`, true when the relative return is
strictly positive and the up-on-down-days fraction is at least 0.4. -/
def rotation_tool (market : List ℚ) (sectors : List SectorInput) :
    List RotationToolEntry :=
  (get_sector_rotation_analysis market sectors).map fun r =>
    { result := r
      rotation_signal :=
        decide (0 < r.relative_return) &&
        decide ((0.4 : ℚ) ≤ r.up_on_down_days_ratio) }

/-! ## Observation helpers used by the statements below -/

/-- Boolean subsequence test (greedy matching, which is complete for
the subsequence relation). -/
def isStatusSubseqOf : List AnalysisStatus → List AnalysisStatus → Bool
  | [], _ => true
  | _ :: _, [] => false
  | a :: as, b :: bs =>
    if a = b then isStatusSubseqOf as bs else isStatusSubseqOf (a :: as) bs

/-- Case-normalised ticker of a recommendation entry: the key under
which `run_analysis` compares entries with requested tickers. -/
def tickerKey (r : Rec) : Option String := r.ticker.map pyUpper

/-- Number of entries of a recommendation list whose case-normalised
ticker is `t` — "how often ticker `t` appears in the list". -/
def recTickerCount (recs : List Rec) (t : String) : Nat :=
  (recs.filter fun r => decide (tickerKey r = some t)).length

/-- Concrete tool entry used to exercise `capex_tool` at the inclusive
0.20 boundary: quarterly capex spend rising from 10 to 12 (reported as
-10, -12 in the cash-flow statement, most recent first). -/
def capexBoundaryEntry : CapexToolEntry :=
  { ticker := "GE"
    result := { latest_capex_mil := 12, previous_capex_mil := 10,
                capex_growth_pct := some (1 / 5) }
    strong_signal := true }

/-- A concrete 7-session (close, volume) history with exactly 3
distribution days (sessions 2, 4 and 6 close lower on volume 100,
above both the prior volume 10 and the average volume 50). -/
def sevenSessionRows : List (ℚ × ℚ) :=
  [(100, 10), (90, 100), (95, 10), (85, 100), (90, 10), (80, 100), (85, 20)]

/-- Sell-signal input whose fundamental and technical data are
unavailable while the distribution history is `sevenSessionRows`. -/
def sellWitnessInput : SellInput :=
  { ticker := "GE", fund := none, tech := none, dist := some sevenSessionRows }

/-- The result `get_sell_signals` produces for `sellWitnessInput`:
only the distribution sub-result is present (3 distribution days, no
signal), the other sub-signals are omitted, and the composite flag is
false. -/
def sellWitnessResult : SellTickerResult :=
  { ticker := "GE"
    fundamental_signal := none
    inventory_growth_pct := none
    revenue_growth_pct := none
    receivables_growth_pct := none
    capex_growth_pct := none
    technical_signal := none
    extension_pct := none
    current_rsi := none
    rsi_divergence := none
    overextended := none
    distribution_signal := some false
    distribution_days_count := some 3
    sell_signal := false }

/-- Market benchmark closes falling on five consecutive sessions. -/
def rotWitnessMarket : List ℚ := [100, 99, 98, 97, 96, 95]

/-- One sector whose price rises on exactly 2 of the 5 market
down-days, ending 1% below its start. -/
def rotWitnessSectors : List SectorInput :=
  [{ ticker := "XLU", name := "Utilities", prices := some [100, 101, 102, 101, 100, 99] }]

/-- The rotation entry computed for `rotWitnessSectors` against
`rotWitnessMarket`: relative return 1/25 > 0 and up-on-down-days
fraction exactly 2/5 = 0.4, so the signal fires at the inclusive
boundary. -/
def rotWitnessEntry : RotationToolEntry :=
  { result := { ticker := "XLU", name := "Utilities",
                trailing_return := -1 / 100, market_return := -1 / 20,
                relative_return := 1 / 25, up_on_down_days_ratio := 2 / 5 }
    rotation_signal := true }

/-- Statement input whose previous-period revenue, inventory and
receivables are all zero, so every growth ratio is `None`; the capex
row is missing. -/
def fundNullInput : FundInput :=
  { revenue := some [5, 0], inventory := some [3, 0],
    receivables := some [2, 0], capex := none }

/-- The fundamental result for `fundNullInput`: all growth metrics
null and a false signal. -/
def fundNullResult : FundResult :=
  { latest_revenue := 5, previous_revenue := 0, revenue_growth_pct := none
    latest_inventory := 3, previous_inventory := 0, inventory_growth_pct := none
    latest_receivables := 2, previous_receivables := 0, receivables_growth_pct := none
    capex_growth_pct := none, capex_peak := false, fundamental_signal := false }

/-- Capex tool entry for a series whose previous-period value is zero:
the growth metric is null and `strong_signal` is false. -/
def capexNullEntry : CapexToolEntry :=
  { ticker := "GE"
    result := { latest_capex_mil := 5, previous_capex_mil := 0, capex_growth_pct := none }
    strong_signal := false }

/-- A reasoning-stage recommendation list that mentions the requested
ticker MSFT (in lower case) and nothing else. -/
def reconWitnessRecs : List Rec :=
  [{ ticker := some "msft", rating := some "buy", reason := some "capex"
     current_price := none, percent_change := none }]

/-! ## Helper lemmas about the Python string primitives -/

theorem char_toNat_ofNat_of_valid {n : Nat} (h : n.isValidChar) :
    (Char.ofNat n).toNat = n := by
  rw [Char.ofNat, dif_pos h]
  rfl

theorem pyCharUpper_idem (c : Char) : pyCharUpper (pyCharUpper c) = pyCharUpper c := by
  unfold pyCharUpper
  by_cases h : 97 ≤ c.toNat ∧ c.toNat ≤ 122
  · rw [if_pos h]
    have hv : (c.toNat - 32).isValidChar := Or.inl (by omega)
    have ht := char_toNat_ofNat_of_valid hv
    rw [if_neg]
    rw [ht]
    omega
  · rw [if_neg h, if_neg h]

theorem pyUpper_idem (s : String) : pyUpper (pyUpper s) = pyUpper s := by
  show (⟨(s.data.map pyCharUpper).map pyCharUpper⟩ : String) = ⟨s.data.map pyCharUpper⟩
  rw [List.map_map]
  congr 1
  exact List.map_congr_left fun c _ => pyCharUpper_idem c

theorem pyUpper_ne_empty {s : String} (h : s ≠ "") : pyUpper s ≠ "" := by
  intro he
  apply h
  have hdata : (pyUpper s).data = ("" : String).data := congrArg String.data he
  simp only [pyUpper] at hdata
  have : s.data = [] := by
    have : s.data.map pyCharUpper = [] := hdata
    simpa using this
  cases s
  simp_all

theorem mem_requestedTickers_upper {tickers_str t : String}
    (h : t ∈ requestedTickers tickers_str) : pyUpper t = t ∧ t ≠ "" := by
  simp only [requestedTickers, List.mem_filterMap] at h
  obtain ⟨x, _, hx⟩ := h
  by_cases hs : pyStrip x = ""
  · simp [hs] at hx
  · simp only [if_neg hs] at hx
    obtain ⟨⟩ := hx
    exact ⟨pyUpper_idem _, pyUpper_ne_empty hs⟩

/-! ## C1 — status persisted at job creation -/

/-- C1 (counterexample): the claim says the first persisted status of a
new record is PENDING; but for the concrete create-job call with
tickers `["GE"]` the status persisted by `create_analysis` is RUNNING,
not PENDING. -/
theorem create_analysis_first_status_not_pending :
    (create_analysis (some ["GE"])).status = AnalysisStatus.running ∧
    (create_analysis (some ["GE"])).status ≠ AnalysisStatus.pending :=
  ⟨rfl, by decide⟩

/-- C1 (amended): for every create-job call the first (and only) status
persisted by `create_analysis` is RUNNING; the PENDING state exists
only as the model's declared column default and is never the persisted
status of a created job. -/
theorem create_analysis_persists_running (requestTickers : Option (List String)) :
    (create_analysis requestTickers).status = AnalysisStatus.running ∧
    analysisStatusColumnDefault = AnalysisStatus.pending :=
  ⟨rfl, rfl⟩

/-! ## C5 — the status sequence over a job's lifetime -/

/-- C5: for every job (any requested tickers, any pipeline outcome,
any price oracle) the sequence of status values persisted over its
lifetime is a subsequence of [PENDING, RUNNING, COMPLETED] or of
[PENDING, RUNNING, FAILED]; the status never moves backward. -/
theorem status_trace_subsequence (requestTickers : Option (List String))
    (pinfo : String → Option PriceInfo) (outcome : CrewOutcome) :
    isStatusSubseqOf (persistedStatusTrace requestTickers pinfo outcome)
      [AnalysisStatus.pending, AnalysisStatus.running, AnalysisStatus.completed] = true ∨
    isStatusSubseqOf (persistedStatusTrace requestTickers pinfo outcome)
      [AnalysisStatus.pending, AnalysisStatus.running, AnalysisStatus.failed] = true := by
  cases outcome with
  | exn msg => exact Or.inr rfl
  | ok raw parsed =>
    cases parsed with
    | none => exact Or.inl rfl
    | some recs => exact Or.inl rfl

/-! ## C10 — unparseable reasoning output -/

/-- C10: when the crew pipeline returns normally but its output string
is not parseable as JSON, the job still transitions to COMPLETED, the
raw string is persisted verbatim as the summary, the recommendation
field is set to null, and the requested-ticker reconciliation never
happens (the summary is the raw text, not a reconciled structured
list). -/
theorem run_analysis_unparseable_output (tickers_str raw : String)
    (pinfo : String → Option PriceInfo) (a : AnalysisRecord) :
    (run_analysis tickers_str pinfo (.ok raw none) a).status = AnalysisStatus.completed ∧
    (run_analysis tickers_str pinfo (.ok raw none) a).summary = some (.raw raw) ∧
    (run_analysis tickers_str pinfo (.ok raw none) a).recommendation = none :=
  ⟨rfl, rfl, rfl⟩

/-! ## C2 — broadcast failure handling -/

theorem broadcast_foldl_spec (message : String) :
    ∀ (l : List Subscriber) (acc : BroadcastState),
      l.foldl (broadcastStep message) acc =
        { acc with
          closedIds := acc.closedIds ++ ((l.filter (·.sendFails)).map (·.id)),
          delivered :=
            acc.delivered ++ ((l.filter fun c => !c.sendFails).map fun c => (c.id, message)) }
  | [], acc => by simp
  | ws :: rest, acc => by
    rw [List.foldl_cons, broadcast_foldl_spec message rest]
    by_cases h : ws.sendFails <;>
      simp [broadcastStep, h, List.filter_cons]

/-- C2 (counterexample): the claim says a subscriber whose delivery
fails is closed *and detached from the registry*.  In the concrete
state with subscribers 1 (failing) and 2 (healthy), broadcasting closes
subscriber 1 and still delivers to subscriber 2 — but subscriber 1
remains in the connection registry. -/
theorem broadcast_failed_subscriber_not_detached :
    (broadcast "hello" ⟨[⟨1, true⟩, ⟨2, false⟩], [], []⟩).closedIds = [1] ∧
    (broadcast "hello" ⟨[⟨1, true⟩, ⟨2, false⟩], [], []⟩).delivered = [(2, "hello")] ∧
    (⟨1, true⟩ : Subscriber) ∈ (broadcast "hello" ⟨[⟨1, true⟩, ⟨2, false⟩], [], []⟩).conns := by
  refine ⟨rfl, rfl, ?_⟩
  show (⟨1, true⟩ : Subscriber) ∈ [(⟨1, true⟩ : Subscriber), ⟨2, false⟩]
  exact List.mem_cons_self _ _

/-- C2 (amended): when delivery of a log line to a live subscriber
fails, that subscriber is closed but NOT detached — the registry is
left unchanged by `broadcast` — and publishing continues unaffected:
every non-failing subscriber receives the message, in registration
order. -/
theorem broadcast_closes_but_never_detaches (message : String) (st : BroadcastState) :
    (broadcast message st).conns = st.conns ∧
    (broadcast message st).closedIds =
      st.closedIds ++ ((st.conns.filter (·.sendFails)).map (·.id)) ∧
    (broadcast message st).delivered =
      st.delivered ++ ((st.conns.filter fun c => !c.sendFails).map fun c => (c.id, message)) := by
  rw [broadcast, broadcast_foldl_spec message st.conns st]
  exact ⟨rfl, rfl, rfl⟩

/-! ## C3 — distribution-exit detector -/

/-- C3 (counterexample): the claim says the detector requires at least
60 days of close+volume history and returns an absent result otherwise;
but on this concrete 7-session history it returns a present result
(counting 3 distribution days, hence no signal). -/
theorem distribution_seven_session_eval :
    get_distribution_exit_signal (some sevenSessionRows) =
      some { distribution_days_count := 3, avg_volume_60 := 50,
             distribution_signal := false } := by
  norm_num [get_distribution_exit_signal, distributionDayCount, listMean,
    List.range_succ, sevenSessionRows]
  intro h
  simp at h

theorem distribution_result_present_below_sixty_days :
    sevenSessionRows.length < 60 ∧
    get_distribution_exit_signal (some sevenSessionRows) =
      some { distribution_days_count := 3, avg_volume_60 := 50,
             distribution_signal := false } :=
  ⟨by decide, distribution_seven_session_eval⟩

/-- C3 (amended): the detector returns an absent result only when the
history itself is absent or empty; with any non-empty close+volume
history it returns a result (when fewer than 60 sessions exist, the
60-day average volume degrades to the mean of all available volumes),
and `distribution_signal` is true exactly when the count of
distribution days over the most recent 20 sessions is at least 4, so a
count of 3 yields false. -/
theorem distribution_exit_spec (rows : List (ℚ × ℚ)) (h : rows ≠ []) :
    get_distribution_exit_signal none = none ∧
    get_distribution_exit_signal (some []) = none ∧
    ∃ r, get_distribution_exit_signal (some rows) = some r ∧
      r.distribution_days_count =
        distributionDayCount (rows.map (·.1)) (rows.map (·.2)) r.avg_volume_60 ∧
      (r.distribution_signal = true ↔ 4 ≤ r.distribution_days_count) := by
  refine ⟨rfl, rfl, ?_⟩
  simp only [get_distribution_exit_signal]
  rw [if_neg h]
  exact ⟨_, rfl, rfl, by simp⟩

/-- C3 (witness for the amended theorem) at the concrete 7-session
history above. -/
theorem distribution_exit_spec_witness :
    ([((100 : ℚ), (10 : ℚ)), (90, 100), (95, 10), (85, 100), (90, 10), (80, 100), (85, 10)] ≠ []) ∧
    (get_distribution_exit_signal none = none ∧
     get_distribution_exit_signal (some []) = none ∧
     ∃ r, get_distribution_exit_signal
         (some [(100, 10), (90, 100), (95, 10), (85, 100), (90, 10), (80, 100), (85, 10)]) = some r ∧
       r.distribution_days_count =
         distributionDayCount
           ([((100 : ℚ), (10 : ℚ)), (90, 100), (95, 10), (85, 100), (90, 10), (80, 100), (85, 10)].map (·.1))
           ([((100 : ℚ), (10 : ℚ)), (90, 100), (95, 10), (85, 100), (90, 10), (80, 100), (85, 10)].map (·.2))
           r.avg_volume_60 ∧
       (r.distribution_signal = true ↔ 4 ≤ r.distribution_days_count)) :=
  ⟨List.cons_ne_nil _ _, distribution_exit_spec _ (List.cons_ne_nil _ _)⟩

/-! ## C7 — capex growth threshold -/

/-- C7: the capex detector returns an absent result when the line item
is missing (or the fetch failed) or fewer than two reporting periods
exist; and for every entry the tool emits, `strong_signal` is true
exactly when a growth value was computed and it is at least 0.20
(inclusive boundary). -/
theorem capex_strong_signal_spec :
    get_capex_growth none = none ∧
    (∀ series : List ℚ, series.length < 2 → get_capex_growth (some series) = none) ∧
    (∀ (tickers : String) (fetch : String → Option (List ℚ)),
      ∀ e ∈ capex_tool tickers fetch,
        (e.strong_signal = true ↔
          ∃ g, e.result.capex_growth_pct = some g ∧ (0.20 : ℚ) ≤ g)) := by
  refine ⟨rfl, ?_, ?_⟩
  · intro series h
    simp only [get_capex_growth]
    rw [if_pos h]
  · intro tickers fetch e he
    simp only [capex_tool, List.mem_filterMap] at he
    obtain ⟨t, _, gets⟩ := he
    cases hg : get_capex_growth (fetch t) with
    | none => rw [hg] at gets; simp at gets
    | some data =>
      rw [hg] at gets
      simp only [Option.some.injEq] at gets
      subst gets
      cases data.capex_growth_pct with
      | none => simp [capexStrongFlag]
      | some g => simp [capexStrongFlag]

/-- C7 (witness): for a quarterly capex series of -10 then -12 (most
recent first: -12, -10) the growth is exactly 0.20, and the emitted
entry's `strong_signal` is true — the boundary is inclusive. -/
theorem capex_strong_signal_spec_witness :
    capexBoundaryEntry ∈ capex_tool "GE" (fun _ => some [-12, -10]) ∧
    (capexBoundaryEntry.strong_signal = true ↔
      ∃ g, capexBoundaryEntry.result.capex_growth_pct = some g ∧ (0.20 : ℚ) ≤ g) := by
  have heq : capex_tool "GE" (fun _ => some [-12, -10]) = [capexBoundaryEntry] := by
    have h1 : (pySplitComma "GE").filterMap
        (fun t => if pyStrip t = "" then none else some (pyStrip t)) = ["GE"] := by decide
    simp only [capex_tool]
    rw [h1]
    norm_num [get_capex_growth, capexStrongFlag, List.filterMap_cons, capexBoundaryEntry]
  have hmem : capexBoundaryEntry ∈ capex_tool "GE" (fun _ => some [-12, -10]) := by
    rw [heq]
    exact List.mem_cons_self _ _
  exact ⟨hmem, capex_strong_signal_spec.2.2 "GE" (fun _ => some [-12, -10]) _ hmem⟩

/-! ## C6 — composite sell-signal aggregation -/

/-- C6: per ticker, a result is dropped exactly when all three
sub-detectors are unavailable; each sub-signal field is present exactly
when its detector returned a result (omitted, not false, when
unavailable); and `sell_signal` is the OR of whichever sub-signals are
available. -/
theorem sell_signals_composition (inp : SellInput) :
    (sellResultFor inp = none ↔
      get_fundamental_peak_signal inp.fund = none ∧
      get_technical_exhaustion_signal inp.tech = none ∧
      get_distribution_exit_signal inp.dist = none) ∧
    (∀ r, sellResultFor inp = some r →
      r.fundamental_signal = (get_fundamental_peak_signal inp.fund).map (·.fundamental_signal) ∧
      r.technical_signal = (get_technical_exhaustion_signal inp.tech).map (·.technical_signal) ∧
      r.distribution_signal = (get_distribution_exit_signal inp.dist).map (·.distribution_signal) ∧
      r.sell_signal = (r.fundamental_signal.getD false ||
        (r.technical_signal.getD false || r.distribution_signal.getD false))) ∧
    (∀ inputs : List SellInput, get_sell_signals inputs = inputs.filterMap sellResultFor) := by
  refine ⟨?_, ?_, fun _ => rfl⟩
  · by_cases h : get_fundamental_peak_signal inp.fund = none ∧
        get_technical_exhaustion_signal inp.tech = none ∧
        get_distribution_exit_signal inp.dist = none
    · simp only [sellResultFor, if_pos h]
      simpa using h
    · simp only [sellResultFor, if_neg h]
      simpa using h
  · intro r hr
    simp only [sellResultFor] at hr
    by_cases h : get_fundamental_peak_signal inp.fund = none ∧
        get_technical_exhaustion_signal inp.tech = none ∧
        get_distribution_exit_signal inp.dist = none
    · rw [if_pos h] at hr
      cases hr
    · rw [if_neg h] at hr
      simp only [Option.some.injEq] at hr
      subst hr
      exact ⟨rfl, rfl, rfl, rfl⟩

/-- C6 (witness): with fundamental and technical data unavailable and a
7-session distribution history present, the ticker is kept, the
fundamental/technical sub-signals are omitted (`none`, not `false`),
the distribution sub-signal is present and false, and the composite
`sell_signal` is the OR of the single available sub-signal. -/
theorem sell_signals_composition_witness :
    sellResultFor sellWitnessInput = some sellWitnessResult ∧
    (sellWitnessResult.fundamental_signal =
        (get_fundamental_peak_signal sellWitnessInput.fund).map (·.fundamental_signal) ∧
      sellWitnessResult.technical_signal =
        (get_technical_exhaustion_signal sellWitnessInput.tech).map (·.technical_signal) ∧
      sellWitnessResult.distribution_signal =
        (get_distribution_exit_signal sellWitnessInput.dist).map (·.distribution_signal) ∧
      sellWitnessResult.sell_signal = (sellWitnessResult.fundamental_signal.getD false ||
        (sellWitnessResult.technical_signal.getD false ||
         sellWitnessResult.distribution_signal.getD false))) := by
  have hr : sellResultFor sellWitnessInput = some sellWitnessResult := by
    have hf : get_fundamental_peak_signal none = none := rfl
    have ht : get_technical_exhaustion_signal none = none := rfl
    simp only [sellResultFor, sellWitnessInput, distribution_seven_session_eval]
    norm_num [sellWitnessResult, hf, ht]
    intro h
    simp at h
  exact ⟨hr, (sell_signals_composition sellWitnessInput).2.1 _ hr⟩

/-! ## C8 — sector rotation ordering and signal -/

instance : IsTotal SectorRotationResult rotationOrder :=
  ⟨fun a b => le_total b.relative_return a.relative_return⟩

instance : IsTrans SectorRotationResult rotationOrder :=
  ⟨fun _ _ _ hab hbc => le_trans hbc hab⟩

/-- C8: the sector-rotation result list is always sorted by relative
return in descending order, and every `rotation_tool` entry's
`rotation_signal` is true exactly when its relative return is strictly
positive and its up-on-down-days fraction is at least 0.4 (inclusive
boundary). -/
theorem rotation_sorted_and_signal (market : List ℚ) (sectors : List SectorInput) :
    (get_sector_rotation_analysis market sectors).Sorted rotationOrder ∧
    ∀ e ∈ rotation_tool market sectors,
      (e.rotation_signal = true ↔
        0 < e.result.relative_return ∧ (0.4 : ℚ) ≤ e.result.up_on_down_days_ratio) := by
  constructor
  · exact List.sorted_insertionSort rotationOrder _
  · intro e he
    simp only [rotation_tool, List.mem_map] at he
    obtain ⟨r, _, hre⟩ := he
    subst hre
    simp

/-- C8 (witness): against a market that falls on five consecutive
sessions, a sector that rises on exactly two of those down-days has an
up-on-down-days fraction of exactly 0.4 and a positive relative
return, so its signal fires at the inclusive boundary. -/
theorem rotation_sorted_and_signal_witness :
    rotWitnessEntry ∈ rotation_tool rotWitnessMarket rotWitnessSectors ∧
    (rotWitnessEntry.rotation_signal = true ↔
      0 < rotWitnessEntry.result.relative_return ∧
      (0.4 : ℚ) ≤ rotWitnessEntry.result.up_on_down_days_ratio) := by
  have heq : rotation_tool rotWitnessMarket rotWitnessSectors = [rotWitnessEntry] := by
    norm_num [rotation_tool, get_sector_rotation_analysis, pctChange,
      rotWitnessMarket, rotWitnessSectors, rotWitnessEntry,
      List.insertionSort, List.orderedInsert, List.filterMap_cons]
  have hmem : rotWitnessEntry ∈ rotation_tool rotWitnessMarket rotWitnessSectors := by
    rw [heq]
    exact List.mem_cons_self _ _
  exact ⟨hmem, (rotation_sorted_and_signal rotWitnessMarket rotWitnessSectors).2 _ hmem⟩

/-! ## C9 — null metrics never assert a true signal -/

/-- C9: in every detector family whose guarded computations can yield a
null metric, the null branch produces a false signal: a capex entry
whose growth is null has `strong_signal = false`; the pricing spike
flag on a null change is false; and a fundamental result whose four
growth metrics are all null has `fundamental_signal = false`. -/
theorem null_metrics_no_true_signal :
    (∀ (tickers : String) (fetch : String → Option (List ℚ)),
      ∀ e ∈ capex_tool tickers fetch,
        e.result.capex_growth_pct = none → e.strong_signal = false) ∧
    spikeFlag none = false ∧
    (∀ (input : Option FundInput) (r : FundResult),
      get_fundamental_peak_signal input = some r →
      r.revenue_growth_pct = none → r.inventory_growth_pct = none →
      r.receivables_growth_pct = none → r.capex_growth_pct = none →
      r.fundamental_signal = false) := by
  refine ⟨?_, rfl, ?_⟩
  · intro tickers fetch e he hnull
    simp only [capex_tool, List.mem_filterMap] at he
    obtain ⟨t, _, gets⟩ := he
    cases hg : get_capex_growth (fetch t) with
    | none => rw [hg] at gets; cases gets
    | some data =>
      rw [hg] at gets
      simp only [Option.some.injEq] at gets
      subst gets
      simp only at hnull
      simp [capexStrongFlag, hnull]
  · intro input r h hrev hinv har hcap
    cases input with
    | none => exact absurd h (by simp [get_fundamental_peak_signal])
    | some fi =>
      simp only [get_fundamental_peak_signal] at h
      split at h
      · split at h
        · cases h
        · simp only [Option.some.injEq] at h
          subst h
          simp only at hrev hinv har hcap ⊢
          rw [hrev, hcap]
          simp
      · cases h

/-- C9 (witness): a capex series whose previous figure is zero yields a
present entry with a null growth metric and a false `strong_signal`;
the null-change spike flag is false; and statements whose
previous-period figures are all zero yield a fundamental result with
all growth metrics null and a false `fundamental_signal`. -/
theorem null_metrics_no_true_signal_witness :
    (capexNullEntry ∈ capex_tool "GE" (fun _ => some [-5, 0]) ∧
     capexNullEntry.result.capex_growth_pct = none ∧
     capexNullEntry.strong_signal = false) ∧
    spikeFlag none = false ∧
    (get_fundamental_peak_signal (some fundNullInput) = some fundNullResult ∧
     fundNullResult.revenue_growth_pct = none ∧
     fundNullResult.inventory_growth_pct = none ∧
     fundNullResult.receivables_growth_pct = none ∧
     fundNullResult.capex_growth_pct = none ∧
     fundNullResult.fundamental_signal = false) := by
  have hmem : capexNullEntry ∈ capex_tool "GE" (fun _ => some [-5, 0]) := by
    have h1 : (pySplitComma "GE").filterMap
        (fun t => if pyStrip t = "" then none else some (pyStrip t)) = ["GE"] := by decide
    have heq : capex_tool "GE" (fun _ => some [-5, 0]) = [capexNullEntry] := by
      simp only [capex_tool]
      rw [h1]
      norm_num [get_capex_growth, capexStrongFlag, List.filterMap_cons, capexNullEntry]
    rw [heq]
    exact List.mem_cons_self _ _
  have hfund : get_fundamental_peak_signal (some fundNullInput) = some fundNullResult := by
    norm_num [get_fundamental_peak_signal, fundNullInput, fundNullResult,
      growthPct, get_capex_growth]
  exact ⟨⟨hmem, rfl, null_metrics_no_true_signal.1 "GE" _ _ hmem rfl⟩,
    null_metrics_no_true_signal.2.1,
    ⟨hfund, rfl, rfl, rfl, rfl,
     null_metrics_no_true_signal.2.2 _ _ hfund rfl rfl rfl rfl⟩⟩

/-! ## C4 — requested-ticker reconciliation -/

theorem pyUpper_empty : pyUpper "" = "" := by decide

theorem tickerKey_enrichRec (pinfo : String → Option PriceInfo) (r : Rec) :
    tickerKey (enrichRec pinfo r) = tickerKey r := by
  unfold enrichRec
  split
  · next s heq =>
    split
    · rfl
    · split
      · simp [tickerKey, heq]
      · rfl
  · rfl

theorem tickerKey_neutralEntry (pinfo : String → Option PriceInfo) (req : String) :
    tickerKey (neutralEntry pinfo req) = some (pyUpper req) := by
  unfold neutralEntry
  cases pinfo req <;> rfl

theorem recTickerCount_append (l1 l2 : List Rec) (t : String) :
    recTickerCount (l1 ++ l2) t = recTickerCount l1 t + recTickerCount l2 t := by
  simp [recTickerCount, List.filter_append]

theorem recTickerCount_map_enrich (pinfo : String → Option PriceInfo)
    (recs : List Rec) (t : String) :
    recTickerCount (recs.map (enrichRec pinfo)) t = recTickerCount recs t := by
  unfold recTickerCount
  rw [List.filter_map, List.length_map]
  congr 1
  apply List.filter_congr
  intro r _
  simp [Function.comp, tickerKey_enrichRec]

theorem mem_existingRecTickers_iff {recs : List Rec} {t : String} (ht : t ≠ "") :
    t ∈ existingRecTickers recs ↔ ∃ r, r ∈ recs ∧ tickerKey r = some t := by
  unfold existingRecTickers
  rw [List.mem_filterMap]
  constructor
  · rintro ⟨r, hr, hf⟩
    refine ⟨r, hr, ?_⟩
    split at hf
    · next s heq =>
      split at hf
      · cases hf
      · simp only [Option.some.injEq] at hf
        simp [tickerKey, heq, hf]
    · cases hf
  · rintro ⟨r, hr, hk⟩
    refine ⟨r, hr, ?_⟩
    cases hrt : r.ticker with
    | none => simp [tickerKey, hrt] at hk
    | some s =>
      have hk2 : pyUpper s = t := by
        simpa [tickerKey, hrt] using hk
      have hs : s ≠ "" := by
        intro h0
        apply ht
        rw [← hk2, h0]
        exact pyUpper_empty
      simp [hs, hk2]

theorem recTickerCount_pos_of_mem {recs : List Rec} {r : Rec} {t : String}
    (hr : r ∈ recs) (hk : tickerKey r = some t) : 0 < recTickerCount recs t := by
  unfold recTickerCount
  apply List.length_pos_of_mem (a := r)
  rw [List.mem_filter]
  exact ⟨hr, by simp [hk]⟩

theorem recTickerCount_eq_zero {recs : List Rec} {t : String}
    (h : ∀ r ∈ recs, tickerKey r ≠ some t) : recTickerCount recs t = 0 := by
  unfold recTickerCount
  rw [List.filter_eq_nil_iff.mpr (fun r hr => by simp [h r hr])]
  rfl

/-- C4 (counterexample): the claim says each originally requested
ticker appears exactly once in the final persisted recommendation
list.  For the successfully completing job whose request was the
duplicated list "GE,GE" and whose reasoning output parsed to an empty
recommendation list, the persisted summary is the reconciled list — in
which GE appears twice (one neutral entry per requested occurrence; no
deduplication). -/
theorem requested_ticker_appears_twice :
    (run_analysis "GE,GE" (fun _ => none) (.ok "out" (some []))
        { ticker := "GE,GE", status := .running, recommendation := none,
          summary := none }).status = AnalysisStatus.completed ∧
    (run_analysis "GE,GE" (fun _ => none) (.ok "out" (some []))
        { ticker := "GE,GE", status := .running, recommendation := none,
          summary := none }).summary =
      some (.structured (reconcile "GE,GE" (fun _ => none) [])) ∧
    recTickerCount (reconcile "GE,GE" (fun _ => none) []) "GE" = 2 :=
  ⟨rfl, rfl, by decide⟩

/-- C4 (amended): provided the normalised requested tickers are
pairwise distinct and the reasoning-stage list mentions each normalised
ticker at most once, every requested ticker appears exactly once in
the reconciled recommendation list; a requested ticker absent from the
reasoning list is appended as a neutral entry carrying rating
"neutral", the fixed explanatory reason, and price enrichment when
obtainable.  (Without those provisos the code duplicates entries, as
the counterexample shows.) -/
theorem reconcile_unique_appearance (tickers_str : String)
    (pinfo : String → Option PriceInfo) (recs : List Rec)
    (hreq : (requestedTickers tickers_str).Nodup)
    (hrecs : ∀ s : String, recTickerCount recs s ≤ 1) :
    (∀ t ∈ requestedTickers tickers_str,
      recTickerCount (reconcile tickers_str pinfo recs) t = 1) ∧
    ∀ req : String, (neutralEntry pinfo req).rating = some "neutral" ∧
      (neutralEntry pinfo req).reason = some neutralReason := by
  constructor
  · intro t htK
    obtain ⟨htU, htne⟩ := mem_requestedTickers_upper htK
    unfold reconcile
    rw [recTickerCount_append, recTickerCount_map_enrich]
    have hcong : ∀ req ∈ (requestedTickers tickers_str).filter
        (fun req => !(existingRecTickers recs).contains req),
        ((fun r => decide (tickerKey r = some t)) ∘ neutralEntry pinfo) req = (req == t) := by
      intro req hreqmem
      obtain ⟨hU, _⟩ := mem_requestedTickers_upper (List.mem_filter.mp hreqmem).1
      simp only [Function.comp, tickerKey_neutralEntry, hU]
      rw [Bool.beq_eq_decide_eq]
      simp
    have hneu : recTickerCount
        (((requestedTickers tickers_str).filter fun req =>
            !(existingRecTickers recs).contains req).map (neutralEntry pinfo)) t =
        ((requestedTickers tickers_str).filter
          (fun req => (req == t) && !(existingRecTickers recs).contains req)).length := by
      unfold recTickerCount
      rw [List.filter_map, List.length_map, List.filter_congr hcong, List.filter_filter]
    rw [hneu]
    by_cases hE : t ∈ existingRecTickers recs
    · obtain ⟨r, hr, hk⟩ := (mem_existingRecTickers_iff htne).mp hE
      have h1 : recTickerCount recs t = 1 :=
        Nat.le_antisymm (hrecs t) (recTickerCount_pos_of_mem hr hk)
      have h0 : ((requestedTickers tickers_str).filter
          (fun req => (req == t) && !(existingRecTickers recs).contains req)).length = 0 := by
        rw [List.filter_eq_nil_iff.mpr]
        · rfl
        · intro req _
          by_cases hrt : req = t
          · subst hrt
            simp [List.contains, hE]
          · simp [hrt]
      rw [h1, h0]
    · have h0 : recTickerCount recs t = 0 := by
        apply recTickerCount_eq_zero
        intro r hr hk
        exact hE ((mem_existingRecTickers_iff htne).mpr ⟨r, hr, hk⟩)
      have hcong2 : ∀ req ∈ requestedTickers tickers_str,
          ((req == t) && !(existingRecTickers recs).contains req) = (req == t) := by
        intro req _
        by_cases hrt : req = t
        · subst hrt
          simp [List.contains, hE]
        · simp [hrt]
      have h1 : ((requestedTickers tickers_str).filter
          (fun req => (req == t) && !(existingRecTickers recs).contains req)).length = 1 := by
        rw [List.filter_congr hcong2, ← List.countP_eq_length_filter,
          ← List.count_eq_countP]
        exact List.count_eq_one_of_mem hreq htK
      rw [h0, h1]
  · intro req
    unfold neutralEntry
    cases pinfo req <;> exact ⟨rfl, rfl⟩

/-- C4 (witness for the amended theorem): requesting "GE,MSFT" when the
reasoning list mentions only MSFT (in lower case) yields exactly one
appearance for each requested ticker — the MSFT entry stays, and GE
gets one neutral entry. -/
theorem reconcile_unique_appearance_witness :
    (requestedTickers "GE,MSFT").Nodup ∧
    recTickerCount (reconcile "GE,MSFT" (fun _ => none) reconWitnessRecs) "GE" = 1 ∧
    recTickerCount (reconcile "GE,MSFT" (fun _ => none) reconWitnessRecs) "MSFT" = 1 := by
  have hreq : (requestedTickers "GE,MSFT").Nodup := by decide
  have hrecs : ∀ s : String, recTickerCount reconWitnessRecs s ≤ 1 :=
    fun s => List.length_filter_le _ _
  have hmain := (reconcile_unique_appearance "GE,MSFT" (fun _ => none)
    reconWitnessRecs hreq hrecs).1
  exact ⟨hreq, hmain "GE" (by decide), hmain "MSFT" (by decide)⟩

end CrewInvest
